import Mathlib

/-!
Verification of the teleprompter continuous-scroll and input-fusion engine.

The development shallowly embeds the engine's source:
* `src/components/TextViewport.tsx` — the frame-driven autoscroll loop
  (`tick`), the scroll-element mutation points (`manualScroll`,
  `scrollToStart`, `scrollToEnd`) and the scroll notification (`notifyScroll`);
* the gamepad hook (`useGamepad`) — the per-frame analog-input sampler
  (`poll`), with its debounce ledger (`registerPress`), deadzone/smoothing
  pipeline and per-frame command queue;
* `src/App.tsx` — the playback/timer state and its handlers
  (`handleStart`, `handlePause`, `resetTimers`, `handleGoToStart`,
  `handleScrollChange`, ...).

Modelling conventions:
* JS numbers are modelled as `ℚ` wherever the source only adds, multiplies,
  divides, floors and compares (everything stays executable and decidable);
  the one genuinely non-rational computation, `Math.pow(t, 1.2)` in the
  telemetry speed curve, is modelled over `ℝ` with `Real.rpow`.
  In `ℚ`/`ℝ` there are no non-finite values, so the source's
  `Number.isFinite` guard is always true and is dropped from the model.
* The DOM clamps any assignment of `element.scrollTop` into
  `[0, max 0 (scrollHeight - clientHeight)]`; `ScrollElement.setScrollTop`
  models exactly that single mutation point.
* Callback invocations (`onScrollChange`, `onReachEnd`,
  `onPauseFromManualScroll`, `onManualScroll`, queued button commands) are
  modelled as emitted event lists, applied in emission order to produce the
  state of the next render.
* A simulated browser frame (`browserFrame`) reproduces the scheduling of
  the running application: the viewport's `tick` and the gamepad hook's
  `poll` are separate `requestAnimationFrame` callbacks, with the tick
  registered first (a child component's effects run before its parent's,
  and each callback re-registers itself, preserving the order).  Both
  callbacks were created at the previous render and close over that
  render's props — React state updates requested during a frame are
  asynchronous and only feed the next render — while the scroll element
  and the refs are shared mutable state read and written at call time.
  In particular, a forced pause requested by the sampler does not reach
  the same frame's tick, which still holds the pre-pause `isPlaying`.
-/

/-! ## Constants (from the sources) -/

/-- `DEADZONE = 0.15` in the gamepad hook. -/
def DEADZONE : ℚ := 3/20

/-- `DEBOUNCE_TIME = 200` (ms) in the gamepad hook. -/
def DEBOUNCE_TIME : ℚ := 200

/-- `SMOOTH_FACTOR = 0.9` in the gamepad hook. -/
def SMOOTH_FACTOR : ℚ := 9/10

/-- `MANUAL_SCROLL_MIN = 5` in the gamepad hook. -/
def MANUAL_SCROLL_MIN : ℚ := 5

/-- `MANUAL_SCROLL_MAX = 25` in the gamepad hook. -/
def MANUAL_SCROLL_MAX : ℚ := 25

/-- `DEAD_BAND = 1` (px) in `TextViewport.tsx`. -/
def DEAD_BAND : ℚ := 1

/-- `LINE_HEIGHT_EM = 1.3` in `TextViewport.tsx`. -/
def LINE_HEIGHT_EM : ℚ := 13/10

/-! ## JS numeric primitives

The source uses `Math.max`, `Math.min`, `Math.abs`, `Math.floor` and the
DOM's scroll clamping. They are modelled by the executable definitions
below (bridged to Mathlib's `max`/`min`/`|·|`/`⌊·⌋` by the lemmas that
follow the definitions), so that concrete runs reduce inside the kernel. -/

/-- `Math.max` on two numbers. -/
def jsMax (a b : ℚ) : ℚ := if a ≤ b then b else a

/-- `Math.min` on two numbers. -/
def jsMin (a b : ℚ) : ℚ := if a ≤ b then a else b

/-- `Math.abs`. -/
def jsAbs (q : ℚ) : ℚ := if q < 0 then -q else q

/-- `Math.floor` (as an integer). -/
def jsFloor (q : ℚ) : ℤ := q.floor

/-! ## The scroll element (DOM scroll container) -/

/-- The scrollable DOM element owned by `TextViewport`:
`scrollTop` (the offset), `scrollHeight` (content extent) and
`clientHeight` (viewport size). -/
structure ScrollElement where
  scrollTop : ℚ
  scrollHeight : ℚ
  clientHeight : ℚ
deriving DecidableEq

/-- `scrollHeight - clientHeight`, the scrollable range, computed exactly as
in `notifyScroll` and in the tick's end-of-content check. -/
def ScrollElement.maxScroll (e : ScrollElement) : ℚ :=
  e.scrollHeight - e.clientHeight

/-- DOM semantics of assigning `element.scrollTop` (also of `scrollBy` /
`scrollTo`): the value is clamped into `[0, max 0 (scrollHeight - clientHeight)]`.
This is the single point at which the scroll offset is ever mutated. -/
def ScrollElement.setScrollTop (e : ScrollElement) (v : ℚ) : ScrollElement :=
  { e with scrollTop := jsMax 0 (jsMin v (jsMax 0 e.maxScroll)) }

/-- Applying one scroll delta through the element's clamped mutation point
(`element.scrollBy({top: delta})` / `element.scrollTop += delta`). -/
def applyDelta (e : ScrollElement) (d : ℚ) : ScrollElement :=
  e.setScrollTop (e.scrollTop + d)

/-- A finite sequence of scroll deltas applied in order. -/
def applyDeltas (e : ScrollElement) (ds : List ℚ) : ScrollElement :=
  ds.foldl applyDelta e

/-! ## Speed curves -/

/-- `linesPerSec = 0.5 + 9.5 * t`, `t = (speed - 1) / 49`: the linear
autoscroll curve from the tick in `TextViewport.tsx`. -/
def autoscrollLinesPerSec (speed : ℚ) : ℚ :=
  1/2 + 19/2 * ((speed - 1) / 49)

/-- `pxPerSec = linesPerSec * lineHeightPx` from the tick. -/
def autoscrollPxPerSec (speed lineHeightPx : ℚ) : ℚ :=
  autoscrollLinesPerSec speed * lineHeightPx

/-- `linesPerSec = 0.2 + 4.8 * Math.pow(t, 1.2)`, `t = (speed - 1) / 49`:
the eased curve used by `handleScrollChange` in `App.tsx` for the
remaining-time estimate. `Math.pow` with a non-integer exponent is modelled
by `Real.rpow`. -/
noncomputable def telemetryLinesPerSec (speed : ℝ) : ℝ :=
  1/5 + 24/5 * ((speed - 1) / 49) ^ ((6 : ℝ)/5)

/-- `pxPerSec = linesPerSec * lineHeightPx` from `handleScrollChange`. -/
noncomputable def velocityForTelemetry (speed lineHeightPx : ℝ) : ℝ :=
  telemetryLinesPerSec speed * lineHeightPx

/-! ## The autoscroll loop (`TextViewport.tsx`) -/

/-- Callbacks invoked by the viewport during a frame:
`onScrollChange(scrollTop, scrollHeight, clientHeight)` and `onReachEnd()`. -/
inductive ViewportEvent where
  | scrollChange (scrollTop scrollHeight clientHeight : ℚ)
  | reachEnd
deriving DecidableEq

/-- `true` exactly on `reachEnd` events. -/
def isReachEnd : ViewportEvent → Bool
  | ViewportEvent.reachEnd => true
  | _ => false

/-- Number of `reached-end` signals in an emitted event list. -/
def countReachEnd (evs : List ViewportEvent) : Nat :=
  (evs.filter isReachEnd).length

/-- `notifyScroll`: report the scroll info, then signal `reached-end` when
`maxScroll - scrollTop <= DEAD_BAND`. -/
def notifyScroll (e : ScrollElement) : List ViewportEvent :=
  ViewportEvent.scrollChange e.scrollTop e.scrollHeight e.clientHeight ::
    (if e.maxScroll - e.scrollTop ≤ DEAD_BAND then [ViewportEvent.reachEnd] else [])

/-- `manualScroll(delta)`: `scrollBy` then `notifyScroll`. -/
def manualScroll (e : ScrollElement) (delta : ℚ) : ScrollElement × List ViewportEvent :=
  let e2 := e.setScrollTop (e.scrollTop + delta)
  (e2, notifyScroll e2)

/-- `scrollToStart`: `scrollTo({top: 0})` then `notifyScroll`. -/
def scrollToStart (e : ScrollElement) : ScrollElement × List ViewportEvent :=
  let e2 := e.setScrollTop 0
  (e2, notifyScroll e2)

/-- `scrollToEnd`: `scrollTo({top: scrollHeight})` (clamped by the DOM to the
scrollable range) then `notifyScroll`. -/
def scrollToEnd (e : ScrollElement) : ScrollElement × List ViewportEvent :=
  let e2 := e.setScrollTop e.scrollHeight
  (e2, notifyScroll e2)

/-- The autoscroll loop's per-instance state: the scroll element plus the
two timing refs `lastTimestampRef` and `scrollAccumulatorRef`. -/
structure ViewportState where
  element : ScrollElement
  lastTimestamp : Option ℚ
  scrollAccumulator : ℚ
deriving DecidableEq

/-- One invocation of the `tick` frame callback of `TextViewport.tsx`
(with the scroll element present). Mirrors the source line by line:
when not playing only the timestamp is refreshed; otherwise a `null`
last timestamp is first replaced by the current one (making the interval 0),
`deltaSeconds = (timestamp - last) / 1000` (no clamping to 0), the speed
curve's pixel delta is added to the fractional accumulator, the whole-pixel
part is applied through the element (followed by `notifyScroll`), and
finally `reached-end` is signalled when
`scrollTop >= maxScroll - DEAD_BAND`. -/
def tick (isPlaying : Bool) (speed lineHeightPx : ℚ) (s : ViewportState)
    (timestamp : ℚ) : ViewportState × List ViewportEvent :=
  if isPlaying then
    let last : ℚ :=
      match s.lastTimestamp with
      | none => timestamp
      | some l => l
    let deltaSeconds := (timestamp - last) / 1000
    let scrollDelta := autoscrollPxPerSec speed lineHeightPx * deltaSeconds
    let acc := s.scrollAccumulator + scrollDelta
    let wholePixels : ℤ := jsFloor acc
    let step : ScrollElement × ℚ × List ViewportEvent :=
      if wholePixels ≠ 0 then
        let e2 := s.element.setScrollTop (s.element.scrollTop + (wholePixels : ℚ))
        (e2, acc - (wholePixels : ℚ), notifyScroll e2)
      else
        (s.element, acc, [])
    let endEvents :=
      if step.1.maxScroll - DEAD_BAND ≤ step.1.scrollTop then
        [ViewportEvent.reachEnd]
      else []
    ({ element := step.1, lastTimestamp := some timestamp,
       scrollAccumulator := step.2.1 },
     step.2.2 ++ endEvents)
  else
    ({ s with lastTimestamp := some timestamp }, [])

/-! ## The application state (`App.tsx`) -/

/-- The engine-relevant state of `App`: the playback flag, the speed level,
font size, mirror flag, the telemetry numbers driven by scroll
notifications, the measured container height, and the elapsed-timer refs
(`startTimeRef`, `pausedTimeRef`, `pauseStartRef`).
The remaining-time display is a pure function of this state and the eased
curve (`velocityForTelemetry`) and carries no state of its own, so it is
not a field here. -/
structure AppState where
  isPlaying : Bool
  speed : ℚ
  fontSizePx : ℚ
  mirror : Bool
  elapsedTime : ℚ
  progress : ℚ
  containerHeight : ℚ
  startTime : Option ℚ
  pausedTime : ℚ
  pauseStart : Option ℚ
deriving DecidableEq

/-- `clamp` from `App.tsx`: `Math.min(Math.max(value, min), max)`. -/
def clamp (value lo hi : ℚ) : ℚ := jsMin (jsMax value lo) hi

/-- `Math.round`: round half towards positive infinity. -/
def jsRound (q : ℚ) : ℤ := jsFloor (q + 1/2)

/-- `handleScrollChange` (the state-bearing part): recompute the progress
percentage with the extent floored to 1. -/
def handleScrollChange (a : AppState) (scrollTop scrollHeight clientHeight : ℚ) :
    AppState :=
  let maxScroll := jsMax (scrollHeight - clientHeight) 1
  { a with progress := clamp (scrollTop / maxScroll * 100) 0 100 }

/-- `resetTimers`: zero the telemetry, clear the timer refs, stop playback. -/
def resetTimers (a : AppState) : AppState :=
  { a with elapsedTime := 0, progress := 0, startTime := none,
           pausedTime := 0, pauseStart := none, isPlaying := false }

/-- `handleStart` (with `now = Date.now()`). -/
def handleStart (now : ℚ) (a : AppState) : AppState :=
  let a1 :=
    match a.startTime with
    | none => { a with startTime := some now, pausedTime := 0 }
    | some _ => a
  let a2 :=
    match a1.pauseStart with
    | none => a1
    | some p => { a1 with pausedTime := a1.pausedTime + (now - p), pauseStart := none }
  { a2 with isPlaying := true }

/-- `handlePause`. -/
def handlePause (now : ℚ) (a : AppState) : AppState :=
  if a.isPlaying then { a with pauseStart := some now, isPlaying := false } else a

/-- `handlePauseFromManualScroll`. -/
def handlePauseFromManualScroll (now : ℚ) (a : AppState) : AppState :=
  if a.isPlaying then handlePause now a else a

/-- `maxFontSize`: `containerHeight > 0 ? Math.floor(containerHeight / 3) : 192`. -/
def maxFontSize (a : AppState) : ℚ :=
  if 0 < a.containerHeight then ((jsFloor (a.containerHeight / 3) : ℤ) : ℚ) else 192

/-- `handleSpeedChange`: clamp the rounded value into `[1, 50]`. -/
def handleSpeedChange (a : AppState) (v : ℚ) : AppState :=
  { a with speed := clamp ((jsRound v : ℤ) : ℚ) 1 50 }

/-- `handleFontSizeChange`: clamp the rounded value into
`[MIN_FONT_SIZE, maxFontSize]`. -/
def handleFontSizeChange (a : AppState) (v : ℚ) : AppState :=
  { a with fontSizePx := clamp ((jsRound v : ℤ) : ℚ) 24 (maxFontSize a) }

/-- App state paired with the viewport's state. -/
structure FullState where
  app : AppState
  viewport : ViewportState
deriving DecidableEq

/-- Applying one viewport callback to the app:
`onScrollChange = handleScrollChange`, `onReachEnd = () => setIsPlaying(false)`. -/
def applyViewportEvent (s : FullState) : ViewportEvent → FullState
  | ViewportEvent.scrollChange st sh ch =>
      { s with app := handleScrollChange s.app st sh ch }
  | ViewportEvent.reachEnd =>
      { s with app := { s.app with isPlaying := false } }

/-- Applying a list of viewport callbacks in emission order. -/
def applyViewportEvents (s : FullState) (evs : List ViewportEvent) : FullState :=
  evs.foldl applyViewportEvent s

/-- `handleGoToStart`: `scrollToStart()` (whose notification runs first)
followed by `resetTimers()`. -/
def handleGoToStart (s : FullState) : FullState :=
  let r := scrollToStart s.viewport.element
  let s1 := applyViewportEvents
    { s with viewport := { s.viewport with element := r.1 } } r.2
  { s1 with app := resetTimers s1.app }

/-- `handleGoToEnd`: `scrollToEnd()` only (no timer reset). -/
def handleGoToEnd (s : FullState) : FullState :=
  let r := scrollToEnd s.viewport.element
  applyViewportEvents { s with viewport := { s.viewport with element := r.1 } } r.2

/-- `handleManualScroll(delta)`: forward to the viewport's `manualScroll`. -/
def handleManualScroll (s : FullState) (delta : ℚ) : FullState :=
  let r := manualScroll s.viewport.element delta
  applyViewportEvents { s with viewport := { s.viewport with element := r.1 } } r.2

/-! ## The analog-input sampler (the gamepad hook) -/

/-- The logical commands the gamepad's discrete buttons map to. -/
inductive Command where
  | playPause
  | speedDecrease
  | speedIncrease
  | jumpToStart
  | jumpToEnd
  | mirrorToggle
  | fullscreenToggle
  | fontSizeDecrease
  | fontSizeIncrease
deriving DecidableEq

/-- What one connected gamepad reports for a frame: the pressed state of its
buttons (indexed as in the `BUTTONS` table; missing indices read as not
pressed) and the vertical left-stick axis `axes[1]`. -/
structure GamepadInput where
  buttons : List Bool
  axisY : ℚ
deriving DecidableEq

/-- `pressedButtons[i]?.pressed` with missing entries read as `false`. -/
def GamepadInput.pressed (g : GamepadInput) (i : Nat) : Bool :=
  g.buttons.getD i false

/-- The sampler's refs: `lastPressRef` (the debounce ledger),
`lastTimestampRef` and `smoothedScrollSpeedRef`. -/
structure SamplerState where
  lastPress : List (Nat × ℚ)
  lastTimestamp : Option ℚ
  smoothedScrollSpeed : ℚ
deriving DecidableEq

/-- Callbacks the sampler invokes during a frame, in invocation order. -/
inductive SamplerEvent where
  | pauseFromManualScroll
  | manualScrollBy (delta : ℚ)
  | command (c : Command)
deriving DecidableEq

/-- `true` exactly on queued-command dispatches. -/
def isCommandEvent : SamplerEvent → Bool
  | SamplerEvent.command _ => true
  | _ => false

/-- `lastPress[index] ?? 0`: the ledger read, defaulting to `0` for a
control that has never been accepted. -/
def lookupPress (l : List (Nat × ℚ)) (i : Nat) : ℚ :=
  match l.find? (fun p => p.1 == i) with
  | some p => p.2
  | none => 0

/-- `lastPress[index] = now`: the ledger write. -/
def updatePress (l : List (Nat × ℚ)) (i : Nat) (v : ℚ) : List (Nat × ℚ) :=
  (i, v) :: l.filter (fun p => !(p.1 == i))

/-- `registerPress`: accept the press iff
`now - (lastPress[index] ?? 0) >= DEBOUNCE_TIME`; on acceptance update the
ledger and queue the command (dispatched at the end of the frame). -/
def registerPress (ledger : List (Nat × ℚ)) (now : ℚ) (i : Nat) (c : Command)
    (queued : List Command) : List (Nat × ℚ) × List Command :=
  if DEBOUNCE_TIME ≤ now - lookupPress ledger i then
    (updatePress ledger i now, queued ++ [c])
  else
    (ledger, queued)

/-- The button-to-command bindings, in the order the source checks them:
A, Y, X, LB, RB, DPAD_LEFT, DPAD_RIGHT, DPAD_UP, DPAD_DOWN. -/
def buttonBindings : List (Nat × Command) :=
  [(0, Command.playPause), (3, Command.mirrorToggle),
   (2, Command.fullscreenToggle), (4, Command.jumpToStart),
   (5, Command.jumpToEnd), (14, Command.speedDecrease),
   (15, Command.speedIncrease), (12, Command.fontSizeIncrease),
   (13, Command.fontSizeDecrease)]

/-- The discrete-button section of the per-device loop: each pressed bound
button goes through `registerPress`. -/
def processButtons (g : GamepadInput) (now : ℚ) (ledger : List (Nat × ℚ))
    (queued : List Command) : List (Nat × ℚ) × List Command :=
  buttonBindings.foldl
    (fun acc b => if g.pressed b.1 then registerPress acc.1 now b.1 b.2 acc.2 else acc)
    (ledger, queued)

/-- `targetSpeed`: sign of the raw axis times
`MANUAL_SCROLL_MIN + (MANUAL_SCROLL_MAX - MANUAL_SCROLL_MIN) * normalized^2`,
with `normalized = (|raw| - DEADZONE) / (1 - DEADZONE)`. -/
def targetSpeed (axisY : ℚ) : ℚ :=
  let magnitude := jsAbs axisY
  let direction : ℚ := if 0 < axisY then 1 else -1
  let normalized := (magnitude - DEADZONE) / (1 - DEADZONE)
  direction * (MANUAL_SCROLL_MIN + (MANUAL_SCROLL_MAX - MANUAL_SCROLL_MIN) * normalized ^ 2)

/-- The exponential smoothing step
`smoothed * SMOOTH_FACTOR + targetSpeed * (1 - SMOOTH_FACTOR)`. -/
def nextSmoothed (prev axisY : ℚ) : ℚ :=
  prev * SMOOTH_FACTOR + targetSpeed axisY * (1 - SMOOTH_FACTOR)

/-- The sampler's interval computation: `0` when `lastTimestampRef` is null,
otherwise `(timestamp - last) / 1000` (which may be negative; the emission
guard below only fires on a positive value). -/
def samplerDeltaTime (lastTimestamp : Option ℚ) (timestamp : ℚ) : ℚ :=
  match lastTimestamp with
  | none => 0
  | some l => (timestamp - l) / 1000

/-- The continuous-axis section of the per-device loop. Above the deadzone:
request a forced pause when playing, advance the smoothed velocity, and emit
`manualScroll(smoothed * deltaTime * 50)` only when `deltaTime > 0` (the
`Number.isFinite` guard of the source is always true over `ℚ`). At or below
the deadzone: reset the smoothed velocity to `0` and refresh the timestamp. -/
def processAxis (isPlaying : Bool) (timestamp axisY : ℚ) (st : SamplerState) :
    SamplerState × List SamplerEvent :=
  if DEADZONE < jsAbs axisY then
    let pauseEvents :=
      if isPlaying then [SamplerEvent.pauseFromManualScroll] else []
    let deltaTime := samplerDeltaTime st.lastTimestamp timestamp
    let smoothed := nextSmoothed st.smoothedScrollSpeed axisY
    let scrollDelta := smoothed * deltaTime * 50
    let scrollEvents :=
      if 0 < deltaTime then [SamplerEvent.manualScrollBy scrollDelta] else []
    ({ st with lastTimestamp := some timestamp, smoothedScrollSpeed := smoothed },
     pauseEvents ++ scrollEvents)
  else
    ({ st with lastTimestamp := some timestamp, smoothedScrollSpeed := 0 }, [])

/-- The device loop of `poll`: for each connected gamepad, first the
discrete buttons (queueing accepted commands), then the continuous axis
(emitting its events immediately). Returns the final sampler state, the
frame's command queue and the continuous-phase events in emission order. -/
def pollDevices (isPlaying : Bool) (timestamp : ℚ) :
    List GamepadInput → SamplerState → List Command →
    SamplerState × List Command × List SamplerEvent
  | [], st, queued => (st, queued, [])
  | g :: gs, st, queued =>
      let bp := processButtons g timestamp st.lastPress queued
      let ax := processAxis isPlaying timestamp g.axisY { st with lastPress := bp.1 }
      let rest := pollDevices isPlaying timestamp gs ax.1 bp.2
      (rest.1, rest.2.1, ax.2 ++ rest.2.2)

/-- One invocation of the sampler's `poll` frame callback: process every
connected device, then flush the queued commands (`buttonsHandled`) after
all continuous-axis handling. -/
def pollFrame (isPlaying : Bool) (timestamp : ℚ) (gamepads : List GamepadInput)
    (st : SamplerState) : SamplerState × List SamplerEvent :=
  let r := pollDevices isPlaying timestamp gamepads st []
  (r.1, r.2.2 ++ r.2.1.map SamplerEvent.command)

/-- Applying one queued command the way the source's handler closures do:
guards and input values that the source reads from React props/state
(`isPlaying`, `speed`, `fontSizePx`, `maxFontSize`) come from the render
snapshot `R` the closures were created over, while refs, the DOM element
and functional state updates (`setMirror(prev => ...)`) use the accumulated
state `acc`. -/
def applyCommandR (R : AppState) (now : ℚ) (acc : FullState) : Command → FullState
  | Command.playPause =>
      if R.isPlaying then
        { acc with app := { acc.app with pauseStart := some now, isPlaying := false } }
      else
        { acc with app := handleStart now acc.app }
  | Command.speedDecrease => { acc with app := handleSpeedChange acc.app (R.speed - 1) }
  | Command.speedIncrease => { acc with app := handleSpeedChange acc.app (R.speed + 1) }
  | Command.jumpToStart => handleGoToStart acc
  | Command.jumpToEnd => handleGoToEnd acc
  | Command.mirrorToggle => { acc with app := { acc.app with mirror := !acc.app.mirror } }
  | Command.fullscreenToggle => acc
  | Command.fontSizeDecrease =>
      { acc with app := { acc.app with
          fontSizePx := clamp ((jsRound (R.fontSizePx - 1) : ℤ) : ℚ) 24 (maxFontSize R) } }
  | Command.fontSizeIncrease =>
      { acc with app := { acc.app with
          fontSizePx := clamp ((jsRound (R.fontSizePx + 1) : ℤ) : ℚ) 24 (maxFontSize R) } }

/-- Applying one sampler callback: the pause handler's `isPlaying` guard
(both in `handlePauseFromManualScroll` and in `handlePause`) reads the
render snapshot `R` the closure was created over; the manual-scroll
handler mutates the shared element of the accumulated state at call
time. -/
def applySamplerEventR (R : AppState) (now : ℚ) (acc : FullState) :
    SamplerEvent → FullState
  | SamplerEvent.pauseFromManualScroll =>
      if R.isPlaying then
        { acc with app := { acc.app with pauseStart := some now, isPlaying := false } }
      else acc
  | SamplerEvent.manualScrollBy d => handleManualScroll acc d
  | SamplerEvent.command c => applyCommandR R now acc c

/-- One browser frame of the running application. The viewport's `tick`
runs first (its `requestAnimationFrame` registration precedes the gamepad
hook's: a child component's effects run before its parent's, and each
callback re-registers itself at the end of its run, preserving the order),
then the sampler's `poll`. Both callbacks close over the render snapshot
`s.app` from before the frame — React state updates requested during the
frame are asynchronous, so in particular a forced pause requested by the
sampler does not reach this frame's tick — while the scroll element is
shared mutable state: the sampler's manual-scroll delta lands on the
element the tick already moved. The requested state updates are applied in
emission order (tick's first) to produce the next render's state. -/
def browserFrame (now : ℚ) (gamepads : List GamepadInput) (s : FullState)
    (sp : SamplerState) : FullState × SamplerState :=
  let tr := tick s.app.isPlaying s.app.speed (s.app.fontSizePx * LINE_HEIGHT_EM)
    s.viewport now
  let pr := pollFrame s.app.isPlaying now gamepads sp
  let s1 := applyViewportEvents { s with viewport := tr.1 } tr.2
  (pr.2.foldl (applySamplerEventR s.app now) s1, pr.1)

/-- Running the sampler over a sequence of frames, each frame given as
(playing flag, frame timestamp, connected gamepads). -/
def runFrames : List (Bool × ℚ × List GamepadInput) → SamplerState → SamplerState
  | [], st => st
  | f :: fs, st => runFrames fs (pollFrame f.1 f.2.1 f.2.2 st).1

/-! ## Helper lemmas -/

theorem jsMax_eq (a b : ℚ) : jsMax a b = max a b := by
  unfold jsMax
  split
  · exact (max_eq_right (by assumption)).symm
  · exact (max_eq_left (le_of_not_le (by assumption))).symm

theorem jsMin_eq (a b : ℚ) : jsMin a b = min a b := by
  unfold jsMin
  split
  · exact (min_eq_left (by assumption)).symm
  · exact (min_eq_right (le_of_not_le (by assumption))).symm

theorem jsAbs_eq (q : ℚ) : jsAbs q = |q| := by
  unfold jsAbs
  split
  · exact (abs_of_neg (by assumption)).symm
  · exact (abs_of_nonneg (not_lt.mp (by assumption))).symm

theorem jsFloor_eq (q : ℚ) : jsFloor q = ⌊q⌋ :=
  (Rat.floor_def' q).trans Rat.floor_def.symm

theorem setScrollTop_scrollTop (e : ScrollElement) (v : ℚ) :
    (e.setScrollTop v).scrollTop = max 0 (min v (max 0 e.maxScroll)) := by
  simp [ScrollElement.setScrollTop, jsMax_eq, jsMin_eq]

theorem applyViewportEvent_viewport (s : FullState) (e : ViewportEvent) :
    (applyViewportEvent s e).viewport = s.viewport := by
  cases e <;> rfl

theorem applyViewportEvents_viewport (evs : List ViewportEvent) (s : FullState) :
    (applyViewportEvents s evs).viewport = s.viewport := by
  induction evs generalizing s with
  | nil => rfl
  | cons e evs ih =>
      simp only [applyViewportEvents, List.foldl_cons]
      exact (ih (applyViewportEvent s e)).trans (applyViewportEvent_viewport s e)

theorem applyViewportEvent_pauseStart (s : FullState) (e : ViewportEvent) :
    (applyViewportEvent s e).app.pauseStart = s.app.pauseStart := by
  cases e <;> simp [applyViewportEvent, handleScrollChange]

theorem applyViewportEvents_pauseStart (evs : List ViewportEvent) (s : FullState) :
    (applyViewportEvents s evs).app.pauseStart = s.app.pauseStart := by
  induction evs generalizing s with
  | nil => rfl
  | cons e evs ih =>
      simp only [applyViewportEvents, List.foldl_cons]
      exact (ih (applyViewportEvent s e)).trans (applyViewportEvent_pauseStart s e)

theorem applyViewportEvent_startTime (s : FullState) (e : ViewportEvent) :
    (applyViewportEvent s e).app.startTime = s.app.startTime := by
  cases e <;> simp [applyViewportEvent, handleScrollChange]

theorem applyViewportEvents_startTime (evs : List ViewportEvent) (s : FullState) :
    (applyViewportEvents s evs).app.startTime = s.app.startTime := by
  induction evs generalizing s with
  | nil => rfl
  | cons e evs ih =>
      simp only [applyViewportEvents, List.foldl_cons]
      exact (ih (applyViewportEvent s e)).trans (applyViewportEvent_startTime s e)

theorem applyViewportEvent_isPlaying_false (s : FullState) (e : ViewportEvent)
    (h : s.app.isPlaying = false) : (applyViewportEvent s e).app.isPlaying = false := by
  cases e <;> simp [applyViewportEvent, handleScrollChange, h]

theorem applyViewportEvents_isPlaying_false (evs : List ViewportEvent) (s : FullState)
    (h : s.app.isPlaying = false) :
    (applyViewportEvents s evs).app.isPlaying = false := by
  induction evs generalizing s with
  | nil => exact h
  | cons e evs ih =>
      simp only [applyViewportEvents, List.foldl_cons]
      exact ih (applyViewportEvent s e) (applyViewportEvent_isPlaying_false s e h)

theorem setScrollTop_zero (e : ScrollElement) : (e.setScrollTop 0).scrollTop = 0 := by
  rw [setScrollTop_scrollTop]
  simp [min_eq_left (le_max_left 0 e.maxScroll)]

theorem applyDelta_maxScroll (e : ScrollElement) (d : ℚ) :
    (applyDelta e d).maxScroll = e.maxScroll := rfl

theorem applyDelta_bounds (e : ScrollElement) (d : ℚ) (hM : 0 ≤ e.maxScroll) :
    0 ≤ (applyDelta e d).scrollTop ∧ (applyDelta e d).scrollTop ≤ e.maxScroll := by
  unfold applyDelta
  rw [setScrollTop_scrollTop]
  refine ⟨le_max_left 0 _, ?_⟩
  exact max_le hM (le_trans (min_le_right _ _) (le_of_eq (max_eq_right hM)))

/-! ## C6: the offset invariant under arbitrary delta sequences -/

/-- C6: for every initial element satisfying `0 ≤ scrollTop ≤ maxScroll` and
every finite sequence of applied deltas (manual deltas of arbitrary sign and
magnitude, autoscroll whole-pixel deltas), the resulting offset still
satisfies `0 ≤ scrollTop ≤ maxScroll`, and the scrollable range is
unchanged; the clamp lives in the single mutation point
`ScrollElement.setScrollTop`, not in the callers. -/
theorem offset_invariant_under_deltas (e : ScrollElement) (ds : List ℚ)
    (h0 : 0 ≤ e.scrollTop) (h1 : e.scrollTop ≤ e.maxScroll) :
    0 ≤ (applyDeltas e ds).scrollTop ∧
    (applyDeltas e ds).scrollTop ≤ (applyDeltas e ds).maxScroll ∧
    (applyDeltas e ds).maxScroll = e.maxScroll := by
  induction ds generalizing e with
  | nil => exact ⟨h0, h1, rfl⟩
  | cons d ds ih =>
      have hM : 0 ≤ e.maxScroll := h0.trans h1
      have hb := applyDelta_bounds e d hM
      have hrec := ih (applyDelta e d) hb.1
        ((applyDelta_maxScroll e d).symm ▸ hb.2)
      simpa [applyDeltas, applyDelta_maxScroll] using hrec

/-- Witness for C6 at a concrete element and a delta sequence with large
positive and negative deltas. -/
theorem offset_invariant_under_deltas_witness :
    0 ≤ (applyDeltas ⟨0, 1000, 200⟩ [10000, -99999]).scrollTop ∧
    (applyDeltas ⟨0, 1000, 200⟩ [10000, -99999]).scrollTop ≤
      (applyDeltas ⟨0, 1000, 200⟩ [10000, -99999]).maxScroll ∧
    (applyDeltas ⟨0, 1000, 200⟩ [10000, -99999]).maxScroll =
      ScrollElement.maxScroll ⟨0, 1000, 200⟩ :=
  offset_invariant_under_deltas ⟨0, 1000, 200⟩ [10000, -99999] (by norm_num)
    (by norm_num [ScrollElement.maxScroll])

/-! ## C7: deadzone behaviour -/

/-- C7: on any frame whose raw vertical axis has magnitude at most the
deadzone `0.15`, the sampler emits nothing for that device (no continuous
delta, no pause request), resets the smoothed velocity to exactly `0`, and
refreshes its last-timestamp to the frame's timestamp. -/
theorem deadzone_resets_smoothed_and_emits_nothing (isPlaying : Bool)
    (ts axisY : ℚ) (st : SamplerState) (h : |axisY| ≤ DEADZONE) :
    processAxis isPlaying ts axisY st =
      ({ st with lastTimestamp := some ts, smoothedScrollSpeed := 0 }, []) := by
  unfold processAxis
  rw [if_neg (by rw [jsAbs_eq]; exact not_lt.mpr h)]

/-- Witness for C7 at raw value `0.10`. -/
theorem deadzone_resets_smoothed_and_emits_nothing_witness :
    processAxis true 5 (1/10) ⟨[], none, 7⟩ = (⟨[], some 5, 0⟩, []) :=
  deadzone_resets_smoothed_and_emits_nothing true 5 (1/10) ⟨[], none, 7⟩
    (by rw [abs_of_nonneg (by norm_num : (0:ℚ) ≤ 1/10)]; norm_num [DEADZONE])

/-! ## Concrete runs of the code at the deciding inputs -/

/-- C1 (counterexample): with an empty debounce ledger, the very first press
of a control (button A, the play/pause binding) on a frame at timestamp `0`
is rejected — the frame dispatches no command, because the ledger read
defaults to `0` and `0 - 0 < DEBOUNCE_TIME`. The claim (and the spec's own
debounce example at `t = 0`) says the first press is always accepted. -/
theorem first_press_at_time_zero_is_rejected :
    (pollFrame false 0 [⟨[true], 0⟩] ⟨[], none, 0⟩).2 = [] := by
  norm_num [pollFrame, pollDevices, processButtons, buttonBindings,
    GamepadInput.pressed, registerPress, lookupPress, processAxis, jsAbs,
    DEADZONE, DEBOUNCE_TIME]

/-- C2: the code evaluated at the failing input. The autoscroll tick omits
the `dt = max(0, ...)` clamp that the specification's timing design
mandates for clock anomalies: with last timestamp `1000` and frame
timestamp `0` (clock went backwards), speed level 1 and line height
`93.6`, the tick computes `dt = -1 s`, accumulates `-46.8` px and applies
`-47` whole pixels — the offset drops from `100` to `53`, a negative
scroll delta produced from timing, which the claim (and the documented
clock-anomaly handling) says must never happen. -/
theorem tick_applies_negative_delta_on_clock_rewind :
    (tick true 1 (468/5) ⟨⟨100, 1000, 200⟩, some 1000, 0⟩ 0).1.element.scrollTop = 53 ∧
    (53 : ℚ) < 100 := by
  norm_num [tick, autoscrollPxPerSec, autoscrollLinesPerSec,
    ScrollElement.setScrollTop, ScrollElement.maxScroll, notifyScroll,
    jsFloor_eq, jsMax, jsMin, DEAD_BAND]

/-- C4 (counterexample): from offset `799` with extent `1000` and viewport
`200`, a tick that applies `+2` whole pixels clamps the offset to `800` but
fires the `reached-end` signal twice in that frame — once from
`notifyScroll` and once from the tick's own end-of-content check — not
exactly once as claimed. -/
theorem reach_end_fires_twice_at_boundary :
    countReachEnd (tick true 1 100 ⟨⟨799, 1000, 200⟩, some 0, 3/2⟩ 10).2 = 2 ∧
    (tick true 1 100 ⟨⟨799, 1000, 200⟩, some 0, 3/2⟩ 10).1.element.scrollTop = 800 := by
  norm_num [tick, autoscrollPxPerSec, autoscrollLinesPerSec,
    ScrollElement.setScrollTop, ScrollElement.maxScroll, notifyScroll,
    countReachEnd, isReachEnd, List.filter,
    jsFloor_eq, jsMax, jsMin, DEAD_BAND]

/-- C5 (counterexample): a state reached by one playing tick (which leaves
the fractional remainder `0.468` in the accumulator) and then
`handleGoToStart`: the offset is reset to `0` and playback stops, but the
fractional sub-pixel accumulator still holds `117/250 ≠ 0` — `jumpToStart`
does not clear it (only a line-height change does). -/
theorem jumpToStart_keeps_fractional_accumulator :
    (handleGoToStart ⟨⟨true, 1, 72, false, 0, 0, 500, some 0, 0, none⟩,
        (tick true 1 (468/5) ⟨⟨0, 1000, 200⟩, some 0, 0⟩ 10).1⟩).viewport.scrollAccumulator
      = 117/250 ∧ (117/250 : ℚ) ≠ 0 := by
  norm_num [handleGoToStart, scrollToStart, applyViewportEvents,
    applyViewportEvent, applyViewportEvents_viewport, resetTimers,
    handleScrollChange, tick, autoscrollPxPerSec, autoscrollLinesPerSec,
    ScrollElement.setScrollTop, ScrollElement.maxScroll, notifyScroll,
    jsFloor_eq, jsMax, jsMin, DEAD_BAND]

/-! ## C5 (amended): what jumpToStart actually resets -/

/-- C5 (amended): from any state, `jumpToStart` sets the scroll offset to
`0`, stops playback, and clears the elapsed-timer state (start time,
accumulated paused duration, pending pause start) and the telemetry
readouts — but it leaves the fractional sub-pixel scroll accumulator
untouched (that accumulator is only reset by the line-height-change
effect). -/
theorem jumpToStart_full_reset (s : FullState) :
    (handleGoToStart s).viewport.element.scrollTop = 0 ∧
    (handleGoToStart s).app.isPlaying = false ∧
    (handleGoToStart s).app.elapsedTime = 0 ∧
    (handleGoToStart s).app.progress = 0 ∧
    (handleGoToStart s).app.startTime = none ∧
    (handleGoToStart s).app.pausedTime = 0 ∧
    (handleGoToStart s).app.pauseStart = none ∧
    (handleGoToStart s).viewport.scrollAccumulator = s.viewport.scrollAccumulator := by
  unfold handleGoToStart scrollToStart
  simp only [applyViewportEvents_viewport, resetTimers, setScrollTop_zero]
  simp [applyViewportEvents_viewport, setScrollTop_zero]

/-! ## C1 (amended): the actual debounce acceptance rule -/

/-- C1 (amended): a press of a control at time `now` is accepted iff
`now - last ≥ DEBOUNCE_TIME`, where `last` is the control's ledger entry
defaulting to `0` when the control has never been accepted — so the very
first press of a control is accepted iff the frame timestamp itself is at
least 200ms (not unconditionally, as claimed).  On acceptance the ledger
entry is set to the accepting frame's timestamp and the command is queued;
on rejection the ledger and the queue are unchanged. -/
theorem debounce_accepts_iff_window_elapsed (l : List (Nat × ℚ)) (now : ℚ)
    (i : Nat) (c : Command) (q : List Command) :
    (DEBOUNCE_TIME ≤ now - lookupPress l i →
      registerPress l now i c q = (updatePress l i now, q ++ [c]) ∧
      lookupPress (updatePress l i now) i = now) ∧
    (now - lookupPress l i < DEBOUNCE_TIME →
      registerPress l now i c q = (l, q)) ∧
    lookupPress [] i = 0 := by
  refine ⟨fun h => ⟨?_, ?_⟩, fun h => ?_, rfl⟩
  · unfold registerPress
    rw [if_pos h]
  · simp [lookupPress, updatePress, List.find?]
  · unfold registerPress
    rw [if_neg (not_le.mpr h)]

/-- Witness for the amended C1: an accepted press at `t = 250` on a fresh
ledger updates the ledger entry to `250` and queues the command. -/
theorem debounce_accepts_iff_window_elapsed_witness :
    registerPress [] 250 0 Command.playPause [] =
      (updatePress [] 0 250, [Command.playPause]) ∧
    lookupPress (updatePress [] 0 250) 0 = 250 :=
  (debounce_accepts_iff_window_elapsed [] 250 0 Command.playPause []).1
    (by norm_num [lookupPress, List.find?, DEBOUNCE_TIME])

/-! ## The timing guards that the code does have -/

/-- Supporting lemma (C2 context): the timing guards that do exist in the
code, showing the tick's missing negative-interval clamp is an isolated
slip.  The analog sampler never applies a delta for a non-positive
interval — with a null last timestamp the interval is `0`, and a scroll
delta is emitted only when the interval is strictly positive, so a frame
at or before the stored timestamp emits no delta.  The autoscroll tick
treats a null last timestamp as a zero interval (leaving the element and
the fractional accumulator unchanged). -/
theorem nonpositive_dt_emits_no_delta :
    (∀ (playing : Bool) (ts axisY : ℚ) (st : SamplerState),
      (st.lastTimestamp = none ∨ ∃ l, st.lastTimestamp = some l ∧ ts ≤ l) →
      ∀ d, SamplerEvent.manualScrollBy d ∉ (processAxis playing ts axisY st).2) ∧
    (∀ (speed lh : ℚ) (s : ViewportState) (ts : ℚ),
      s.lastTimestamp = none → 0 ≤ s.scrollAccumulator → s.scrollAccumulator < 1 →
      (tick true speed lh s ts).1.element = s.element ∧
      (tick true speed lh s ts).1.scrollAccumulator = s.scrollAccumulator) := by
  constructor
  · intro playing ts axisY st h d
    have hdt : samplerDeltaTime st.lastTimestamp ts ≤ 0 := by
      rcases h with h | ⟨l, hl, hle⟩
      · rw [h]
        exact le_of_eq rfl
      · rw [hl]
        unfold samplerDeltaTime
        have hsub : ts - l ≤ 0 := sub_nonpos.mpr hle
        linarith
    unfold processAxis
    split
    · dsimp only
      rw [if_neg (not_lt.mpr hdt)]
      intro hmem
      rcases List.mem_append.mp hmem with hmem | hmem
      · split at hmem <;> simp_all
      · exact absurd hmem (List.not_mem_nil _)
    · intro hmem
      exact absurd hmem (List.not_mem_nil _)
  · intro speed lh s ts hnone h0 h1
    have hfloor : jsFloor s.scrollAccumulator = 0 := by
      rw [jsFloor_eq]
      exact Int.floor_eq_zero_iff.mpr ⟨h0, h1⟩
    unfold tick
    rw [hnone]
    simp [hfloor]

/-- The guard lemma at concrete inputs: a sampler frame whose timestamp
`50` lies before the stored timestamp `100` emits no delta even at full
deflection, and a playing tick with a null last timestamp leaves the
element alone. -/
theorem nonpositive_dt_emits_no_delta_witness :
    (SamplerEvent.manualScrollBy 5 ∉ (processAxis true 50 1 ⟨[], some 100, 0⟩).2) ∧
    (tick true 1 100 ⟨⟨0, 1000, 200⟩, none, 1/2⟩ 10).1.element = ⟨0, 1000, 200⟩ :=
  ⟨nonpositive_dt_emits_no_delta.1 true 50 1 ⟨[], some 100, 0⟩
      (Or.inr ⟨100, rfl, by norm_num⟩) 5,
   (nonpositive_dt_emits_no_delta.2 1 100 ⟨⟨0, 1000, 200⟩, none, 1/2⟩ 10 rfl
      (by norm_num) (by norm_num)).1⟩

/-! ## C4 (amended): end-of-content behaviour with the double signal -/

/-- C4 (amended): with extent `1000`, viewport `200` (scrollable range
`800`) and offset `799`, a playing tick whose computed whole-pixel delta is
`+2` clamps the offset to `800` and fires the `reached-end` signal twice in
that frame (once from the scroll notification, once from the tick's own
end check); applying the frame's signals to any application state halts
playback while leaving the viewport — hence the offset, at the end — as the
tick left it. -/
theorem reach_end_clamps_and_signals (s : ViewportState) (speed lh ts l : ℚ)
    (helem : s.element = ⟨799, 1000, 200⟩)
    (hlast : s.lastTimestamp = some l)
    (hwp : jsFloor (s.scrollAccumulator +
        autoscrollPxPerSec speed lh * ((ts - l) / 1000)) = 2) :
    (tick true speed lh s ts).1.element.scrollTop = 800 ∧
    countReachEnd (tick true speed lh s ts).2 = 2 ∧
    ∀ f : FullState,
      (applyViewportEvents f (tick true speed lh s ts).2).app.isPlaying = false ∧
      (applyViewportEvents f (tick true speed lh s ts).2).viewport = f.viewport := by
  have htick : tick true speed lh s ts =
      ({ element := ⟨800, 1000, 200⟩, lastTimestamp := some ts,
         scrollAccumulator := s.scrollAccumulator +
           autoscrollPxPerSec speed lh * ((ts - l) / 1000) - 2 },
       [ViewportEvent.scrollChange 800 1000 200, ViewportEvent.reachEnd,
        ViewportEvent.reachEnd]) := by
    unfold tick
    rw [hlast, helem]
    norm_num [hwp, ScrollElement.setScrollTop, ScrollElement.maxScroll,
      notifyScroll, jsMax, jsMin, DEAD_BAND]
  rw [htick]
  refine ⟨rfl, rfl, fun f => ⟨?_, ?_⟩⟩
  · simp [applyViewportEvents, applyViewportEvent]
  · exact applyViewportEvents_viewport _ f

/-- Witness for the amended C4 at the claim's concrete numbers: offset
`799`, accumulator `1.5`, a tick of `10ms` at speed level 1 with line
height `100` (so the computed whole-pixel delta is exactly `+2`). -/
theorem reach_end_clamps_and_signals_witness :
    (tick true 1 100 ⟨⟨799, 1000, 200⟩, some 0, 3/2⟩ 10).1.element.scrollTop = 800 ∧
    countReachEnd (tick true 1 100 ⟨⟨799, 1000, 200⟩, some 0, 3/2⟩ 10).2 = 2 :=
  ⟨(reach_end_clamps_and_signals ⟨⟨799, 1000, 200⟩, some 0, 3/2⟩ 1 100 10 0 rfl rfl
      (by norm_num [autoscrollPxPerSec, autoscrollLinesPerSec, jsFloor_eq])).1,
   (reach_end_clamps_and_signals ⟨⟨799, 1000, 200⟩, some 0, 3/2⟩ 1 100 10 0 rfl rfl
      (by norm_num [autoscrollPxPerSec, autoscrollLinesPerSec, jsFloor_eq])).2.1⟩

/-! ## C8: speed-curve monotonicity and shape -/

/-- C8: for speed levels in `[1, 50]` and a positive line height, both
velocity mappings — the linear autoscroll curve
`linesPerSec = 0.5 + 9.5 * t` and the eased telemetry curve
`linesPerSec = 0.2 + 4.8 * t^1.2` with `t = (speed - 1)/49` — are
monotonically non-decreasing in the speed level, and each returns its
lines-per-second value multiplied by the line height. -/
theorem speed_curves_monotone :
    (∀ s1 s2 lh : ℚ, 1 ≤ s1 → s1 ≤ s2 → s2 ≤ 50 → 0 < lh →
      autoscrollPxPerSec s1 lh ≤ autoscrollPxPerSec s2 lh) ∧
    (∀ s1 s2 lh : ℝ, 1 ≤ s1 → s1 ≤ s2 → s2 ≤ 50 → 0 < lh →
      velocityForTelemetry s1 lh ≤ velocityForTelemetry s2 lh) ∧
    (∀ s lh : ℚ, autoscrollPxPerSec s lh = autoscrollLinesPerSec s * lh) ∧
    (∀ s lh : ℝ, velocityForTelemetry s lh = telemetryLinesPerSec s * lh) := by
  refine ⟨?_, ?_, fun s lh => rfl, fun s lh => rfl⟩
  · intro s1 s2 lh h1 h12 h50 hlh
    unfold autoscrollPxPerSec autoscrollLinesPerSec
    have hlin : (1:ℚ)/2 + 19/2 * ((s1 - 1)/49) ≤ 1/2 + 19/2 * ((s2 - 1)/49) := by
      linarith
    exact mul_le_mul_of_nonneg_right hlin hlh.le
  · intro s1 s2 lh h1 h12 h50 hlh
    unfold velocityForTelemetry telemetryLinesPerSec
    have hx1 : (0:ℝ) ≤ (s1 - 1)/49 := by linarith
    have hx12 : ((s1 - 1)/49 : ℝ) ≤ (s2 - 1)/49 := by linarith
    have hr : ((s1 - 1)/49 : ℝ) ^ ((6:ℝ)/5) ≤ ((s2 - 1)/49 : ℝ) ^ ((6:ℝ)/5) :=
      Real.rpow_le_rpow hx1 hx12 (by norm_num)
    have hcurve : (1:ℝ)/5 + 24/5 * (((s1 - 1)/49 : ℝ) ^ ((6:ℝ)/5)) ≤
        1/5 + 24/5 * (((s2 - 1)/49 : ℝ) ^ ((6:ℝ)/5)) := by linarith
    exact mul_le_mul_of_nonneg_right hcurve hlh.le

/-- Witness for C8 at speed levels 1 and 2 with line height 26. -/
theorem speed_curves_monotone_witness :
    autoscrollPxPerSec 1 26 ≤ autoscrollPxPerSec 2 26 ∧
    velocityForTelemetry 1 26 ≤ velocityForTelemetry 2 26 :=
  ⟨speed_curves_monotone.1 1 2 26 (by norm_num) (by norm_num) (by norm_num)
      (by norm_num),
   speed_curves_monotone.2.1 1 2 26 (by norm_num) (by norm_num) (by norm_num)
      (by norm_num)⟩

/-! ## C9: per-frame ordering of input fusion -/

theorem processAxis_no_command (playing : Bool) (ts axisY : ℚ) (st : SamplerState) :
    ∀ e ∈ (processAxis playing ts axisY st).2, isCommandEvent e = false := by
  intro e he
  unfold processAxis at he
  split at he
  · dsimp only at he
    rcases List.mem_append.mp he with he | he
    · split at he <;> simp_all [isCommandEvent]
    · split at he <;> simp_all [isCommandEvent]
  · exact absurd he (List.not_mem_nil _)

theorem pollDevices_no_command (playing : Bool) (ts : ℚ) (gs : List GamepadInput)
    (st : SamplerState) (q : List Command) :
    ∀ e ∈ (pollDevices playing ts gs st q).2.2, isCommandEvent e = false := by
  induction gs generalizing st q with
  | nil => intro e he; exact absurd he (List.not_mem_nil _)
  | cons g gs ih =>
      intro e he
      simp only [pollDevices] at he
      rcases List.mem_append.mp he with he | he
      · exact processAxis_no_command _ _ _ _ e he
      · exact ih _ _ e he

/-- C9: in every sampler frame, the emitted event trace splits into a first
segment of continuous-phase events (forced pauses and analog scroll deltas,
none of which is a command dispatch) followed by a final segment consisting
exactly of the queued, debounced commands — so no discrete command runs
before a continuous delta of the same frame. -/
theorem commands_dispatch_after_continuous (playing : Bool) (ts : ℚ)
    (gs : List GamepadInput) (st : SamplerState) :
    ∃ pre post, (pollFrame playing ts gs st).2 = pre ++ post ∧
      (∀ e ∈ pre, isCommandEvent e = false) ∧
      (∀ e ∈ post, isCommandEvent e = true) := by
  refine ⟨(pollDevices playing ts gs st []).2.2,
    ((pollDevices playing ts gs st []).2.1).map SamplerEvent.command, rfl, ?_, ?_⟩
  · exact pollDevices_no_command playing ts gs st []
  · intro e he
    rcases List.mem_map.mp he with ⟨c, _, rfl⟩
    rfl

/-! ## C10: the smoothed manual-scroll velocity stays within ±25 -/

theorem targetSpeed_abs_le (axisY : ℚ) (h : |axisY| ≤ 1) :
    |targetSpeed axisY| ≤ 25 := by
  unfold targetSpeed
  dsimp only
  rw [jsAbs_eq, abs_mul]
  have hm0 : (0:ℚ) ≤ |axisY| := abs_nonneg axisY
  have hdir : |(if 0 < axisY then (1:ℚ) else -1)| = 1 := by
    split <;> norm_num
  rw [hdir, one_mul]
  simp only [DEADZONE, MANUAL_SCROLL_MIN, MANUAL_SCROLL_MAX]
  have hn : ((|axisY| - 3/20) / (1 - 3/20)) ^ 2 ≤ 1 := by
    rw [div_pow, div_le_one (by norm_num)]
    nlinarith [mul_nonneg hm0 (sub_nonneg.mpr h)]
  have hbody : |5 + (25 - 5) * ((|axisY| - 3/20) / (1 - 3/20)) ^ 2| =
      5 + (25 - 5) * ((|axisY| - 3/20) / (1 - 3/20)) ^ 2 :=
    abs_of_nonneg (by positivity)
  rw [hbody]
  nlinarith [hn]

theorem nextSmoothed_abs_le (prev axisY : ℚ) (hp : |prev| ≤ 25) (h : |axisY| ≤ 1) :
    |nextSmoothed prev axisY| ≤ 25 := by
  unfold nextSmoothed SMOOTH_FACTOR
  have ht := targetSpeed_abs_le axisY h
  calc |prev * (9/10) + targetSpeed axisY * (1 - 9/10)|
      ≤ |prev * (9/10)| + |targetSpeed axisY * (1 - 9/10)| := abs_add _ _
    _ = |prev| * (9/10) + |targetSpeed axisY| * (1/10) := by
        rw [abs_mul, abs_mul,
          abs_of_nonneg (by norm_num : (0:ℚ) ≤ 9/10),
          abs_of_nonneg (by norm_num : (0:ℚ) ≤ 1 - 9/10)]
        norm_num
    _ ≤ 25 * (9/10) + 25 * (1/10) := by
        have h1 := mul_le_mul_of_nonneg_right hp (by norm_num : (0:ℚ) ≤ 9/10)
        have h2 := mul_le_mul_of_nonneg_right ht (by norm_num : (0:ℚ) ≤ 1/10)
        linarith
    _ = 25 := by norm_num

theorem processAxis_smoothed_le (playing : Bool) (ts axisY : ℚ) (st : SamplerState)
    (hp : |st.smoothedScrollSpeed| ≤ 25) (h : |axisY| ≤ 1) :
    |(processAxis playing ts axisY st).1.smoothedScrollSpeed| ≤ 25 := by
  unfold processAxis
  split
  · dsimp only
    exact nextSmoothed_abs_le _ _ hp h
  · dsimp only
    norm_num

theorem pollDevices_smoothed_le (playing : Bool) (ts : ℚ) (gs : List GamepadInput)
    (st : SamplerState) (q : List Command)
    (hp : |st.smoothedScrollSpeed| ≤ 25) (h : ∀ g ∈ gs, |g.axisY| ≤ 1) :
    |(pollDevices playing ts gs st q).1.smoothedScrollSpeed| ≤ 25 := by
  induction gs generalizing st q with
  | nil => exact hp
  | cons g gs ih =>
      simp only [pollDevices]
      apply ih
      · exact processAxis_smoothed_le _ _ _ _ hp (h g (List.mem_cons_self g gs))
      · intro g2 hg2
        exact h g2 (List.mem_cons_of_mem _ hg2)

theorem runFrames_smoothed_le (frames : List (Bool × ℚ × List GamepadInput))
    (st : SamplerState) (hp : |st.smoothedScrollSpeed| ≤ 25)
    (h : ∀ f ∈ frames, ∀ g ∈ f.2.2, |g.axisY| ≤ 1) :
    |(runFrames frames st).smoothedScrollSpeed| ≤ 25 := by
  induction frames generalizing st with
  | nil => exact hp
  | cons f fs ih =>
      simp only [runFrames]
      apply ih
      · exact pollDevices_smoothed_le f.1 f.2.1 f.2.2 st []
          hp (h f (List.mem_cons_self f fs))
      · intro f2 hf2 g hg
        exact h f2 (List.mem_cons_of_mem _ hf2) g hg

/-- C10: starting from a smoothed velocity of `0`, after any sequence of
sampler frames whose raw axis values lie in `[-1, 1]`, the smoothed scroll
speed has magnitude at most `25` (the `MANUAL_SCROLL_MAX` target
magnitude): each frame either resets it to `0` or replaces it with the
convex combination `0.9 * smoothed + 0.1 * target` with `|target| ≤ 25`. -/
theorem smoothed_speed_bounded (frames : List (Bool × ℚ × List GamepadInput))
    (st : SamplerState) (h0 : st.smoothedScrollSpeed = 0)
    (h : ∀ f ∈ frames, ∀ g ∈ f.2.2, |g.axisY| ≤ 1) :
    |(runFrames frames st).smoothedScrollSpeed| ≤ 25 :=
  runFrames_smoothed_le frames st (by rw [h0]; norm_num) h

/-- Witness for C10: one frame at full deflection from the initial sampler
state. -/
theorem smoothed_speed_bounded_witness :
    |(runFrames [(true, 10, [⟨[], 1⟩])] ⟨[], none, 0⟩).smoothedScrollSpeed| ≤ 25 :=
  smoothed_speed_bounded [(true, 10, [⟨[], 1⟩])] ⟨[], none, 0⟩ rfl (by simp)

/-! ## C3: manual-input priority -/

theorem pause_then_scroll_fold (R : AppState) (now d : ℚ) (u : FullState)
    (hR : R.isPlaying = true) :
    (([SamplerEvent.pauseFromManualScroll,
       SamplerEvent.manualScrollBy d].foldl
        (applySamplerEventR R now) u)).app.isPlaying = false ∧
    (([SamplerEvent.pauseFromManualScroll,
       SamplerEvent.manualScrollBy d].foldl
        (applySamplerEventR R now) u)).app.pauseStart = some now ∧
    (([SamplerEvent.pauseFromManualScroll,
       SamplerEvent.manualScrollBy d].foldl
        (applySamplerEventR R now) u)).app.startTime = u.app.startTime ∧
    (([SamplerEvent.pauseFromManualScroll,
       SamplerEvent.manualScrollBy d].foldl
        (applySamplerEventR R now) u)).viewport.element =
      applyDelta u.viewport.element d := by
  simp only [List.foldl_cons, List.foldl_nil]
  have h1 : applySamplerEventR R now u SamplerEvent.pauseFromManualScroll =
      { u with app := { u.app with pauseStart := some now, isPlaying := false } } := by
    simp [applySamplerEventR, hR]
  rw [h1]
  have h2 : applySamplerEventR R now
      { u with app := { u.app with pauseStart := some now, isPlaying := false } }
      (SamplerEvent.manualScrollBy d) =
      applyViewportEvents
        { app := { u.app with pauseStart := some now, isPlaying := false },
          viewport := { u.viewport with element :=
            u.viewport.element.setScrollTop (u.viewport.element.scrollTop + d) } }
        (notifyScroll
          (u.viewport.element.setScrollTop (u.viewport.element.scrollTop + d))) := by
    simp [applySamplerEventR, handleManualScroll, manualScroll]
  rw [h2]
  exact ⟨applyViewportEvents_isPlaying_false _ _ rfl,
    applyViewportEvents_pauseStart _ _,
    applyViewportEvents_startTime _ _,
    congrArg ViewportState.element (applyViewportEvents_viewport _ _)⟩

/-- C3 (counterexample): a frame with playback `Playing` (speed 1, font
size 100, so line height 130), offset `100`, both loops' last timestamps
`0` and frame timestamp `100` (so `dt = 0.1s`), full stick deflection and
no buttons. The tick's callback closes over the pre-pause `Playing` state
and moves the element by its own `+6` whole pixels before the sampler's
analog delta `+12.5` lands: the frame's resulting offset is `118.5`, not
the `100 + 12.5 = 112.5` the claim's "the applied offset delta equals the
analog delta only" demands — the autoscroll delta for that same frame IS
applied. -/
theorem same_frame_autoscroll_delta_still_applied :
    (browserFrame 100 [⟨[], 1⟩]
        ⟨⟨true, 1, 100, false, 0, 0, 500, some 0, 0, none⟩,
         ⟨⟨100, 1000, 200⟩, some 0, 0⟩⟩
        ⟨[], some 0, 0⟩).1.app.isPlaying = false ∧
    (browserFrame 100 [⟨[], 1⟩]
        ⟨⟨true, 1, 100, false, 0, 0, 500, some 0, 0, none⟩,
         ⟨⟨100, 1000, 200⟩, some 0, 0⟩⟩
        ⟨[], some 0, 0⟩).1.viewport.element.scrollTop = 237/2 ∧
    (100 : ℚ) + nextSmoothed 0 1 * ((100 - 0) / 1000) * 50 = 225/2 ∧
    (237/2 : ℚ) ≠ 225/2 := by
  norm_num [browserFrame, tick, pollFrame, pollDevices, processButtons,
    buttonBindings, GamepadInput.pressed, processAxis, samplerDeltaTime,
    nextSmoothed, targetSpeed, applySamplerEventR, handleManualScroll,
    manualScroll, applyViewportEvents, applyViewportEvent, handleScrollChange,
    notifyScroll, autoscrollPxPerSec, autoscrollLinesPerSec,
    ScrollElement.setScrollTop, ScrollElement.maxScroll, clamp,
    jsMax, jsMin, jsAbs, jsFloor_eq, DEADZONE, DEAD_BAND, LINE_HEIGHT_EM,
    SMOOTH_FACTOR, MANUAL_SCROLL_MIN, MANUAL_SCROLL_MAX]

/-- C3 (amended): in a browser frame where playback is `Playing`, the
analog stick exceeds the deadzone, no discrete button is pressed, and the
sampler has a previous timestamp strictly before the frame (so a
continuous delta is produced), the sampler requests the forced pause
*before* emitting the analog delta, and after the frame the playback state
is paused (`isPlaying = false`, pause start recorded, start time
untouched).  But the autoscroll delta for that same frame IS applied: the
tick's already-scheduled callback closes over the pre-pause `Playing`
state, so the element after the frame is the element the playing tick
produced with the analog delta applied on top — both deltas land in the
transition frame.  Only from the next render on does the tick, now closing
over the paused state, apply nothing (it merely refreshes its
timestamp). -/
theorem manual_input_priority_transition (s : FullState) (sp : SamplerState)
    (g : GamepadInput) (now l : ℚ)
    (hplay : s.app.isPlaying = true)
    (haxd : DEADZONE < |g.axisY|)
    (hbtn : ∀ i, g.pressed i = false)
    (hlast : sp.lastTimestamp = some l)
    (hdt : l < now) :
    (pollFrame s.app.isPlaying now [g] sp).2 =
      [SamplerEvent.pauseFromManualScroll,
       SamplerEvent.manualScrollBy
         (nextSmoothed sp.smoothedScrollSpeed g.axisY * ((now - l) / 1000) * 50)] ∧
    (browserFrame now [g] s sp).1.app.isPlaying = false ∧
    (browserFrame now [g] s sp).1.app.pauseStart = some now ∧
    (browserFrame now [g] s sp).1.app.startTime = s.app.startTime ∧
    (browserFrame now [g] s sp).1.viewport.element =
      applyDelta
        (tick s.app.isPlaying s.app.speed (s.app.fontSizePx * LINE_HEIGHT_EM)
          s.viewport now).1.element
        (nextSmoothed sp.smoothedScrollSpeed g.axisY * ((now - l) / 1000) * 50) ∧
    (∀ speed2 lh2 ts2 : ℚ,
      tick (browserFrame now [g] s sp).1.app.isPlaying speed2 lh2
          (browserFrame now [g] s sp).1.viewport ts2 =
        ({ (browserFrame now [g] s sp).1.viewport with
            lastTimestamp := some ts2 }, [])) := by
  have haxd' : DEADZONE < jsAbs g.axisY := by
    rw [jsAbs_eq]
    exact haxd
  have hdtpos : 0 < (now - l) / 1000 := div_pos (sub_pos.mpr hdt) (by norm_num)
  have haxis : ∀ st : SamplerState, st.lastTimestamp = some l →
      processAxis true now g.axisY st =
        ({ st with
            lastTimestamp := some now,
            smoothedScrollSpeed := nextSmoothed st.smoothedScrollSpeed g.axisY },
         [SamplerEvent.pauseFromManualScroll,
          SamplerEvent.manualScrollBy
            (nextSmoothed st.smoothedScrollSpeed g.axisY * ((now - l) / 1000) * 50)]) := by
    intro st hst
    unfold processAxis
    rw [if_pos haxd', hst]
    dsimp only [samplerDeltaTime]
    rw [if_pos hdtpos]
    simp
  have hbuttons : processButtons g now sp.lastPress [] = (sp.lastPress, []) := by
    simp [processButtons, buttonBindings, hbtn]
  have hpoll : pollFrame s.app.isPlaying now [g] sp =
      ({ sp with
          lastTimestamp := some now,
          smoothedScrollSpeed := nextSmoothed sp.smoothedScrollSpeed g.axisY },
       [SamplerEvent.pauseFromManualScroll,
        SamplerEvent.manualScrollBy
          (nextSmoothed sp.smoothedScrollSpeed g.axisY * ((now - l) / 1000) * 50)]) := by
    unfold pollFrame pollDevices
    rw [hplay]
    dsimp only
    rw [hbuttons]
    dsimp only
    rw [haxis { sp with lastPress := sp.lastPress } hlast]
    simp [pollDevices]
  refine ⟨by rw [hpoll], ?_⟩
  unfold browserFrame
  rw [hpoll]
  dsimp only
  refine ⟨(pause_then_scroll_fold s.app now _ _ hplay).1,
    (pause_then_scroll_fold s.app now _ _ hplay).2.1,
    (pause_then_scroll_fold s.app now _ _ hplay).2.2.1.trans
      (applyViewportEvents_startTime _ _),
    (pause_then_scroll_fold s.app now _ _ hplay).2.2.2.trans
      (by rw [applyViewportEvents_viewport]), ?_⟩
  intro speed2 lh2 ts2
  rw [(pause_then_scroll_fold s.app now _ _ hplay).1]
  simp [tick]

/-- Witness for the amended C3 at the counterexample's inputs: the pause
event precedes the analog delta in the frame's trace and the next render
is paused. -/
theorem manual_input_priority_transition_witness :
    (pollFrame true 100 [⟨[], 1⟩] ⟨[], some 0, 0⟩).2 =
      [SamplerEvent.pauseFromManualScroll,
       SamplerEvent.manualScrollBy (nextSmoothed 0 1 * ((100 - 0) / 1000) * 50)] ∧
    (browserFrame 100 [⟨[], 1⟩]
        ⟨⟨true, 1, 100, false, 0, 0, 500, some 0, 0, none⟩,
         ⟨⟨100, 1000, 200⟩, some 0, 0⟩⟩
        ⟨[], some 0, 0⟩).1.app.isPlaying = false :=
  ⟨(manual_input_priority_transition
      ⟨⟨true, 1, 100, false, 0, 0, 500, some 0, 0, none⟩,
       ⟨⟨100, 1000, 200⟩, some 0, 0⟩⟩
      ⟨[], some 0, 0⟩ ⟨[], 1⟩ 100 0 rfl
      (by show DEADZONE < |(1:ℚ)|; rw [abs_one]; norm_num [DEADZONE])
      (fun _ => rfl) rfl (by norm_num)).1,
   (manual_input_priority_transition
      ⟨⟨true, 1, 100, false, 0, 0, 500, some 0, 0, none⟩,
       ⟨⟨100, 1000, 200⟩, some 0, 0⟩⟩
      ⟨[], some 0, 0⟩ ⟨[], 1⟩ 100 0 rfl
      (by show DEADZONE < |(1:ℚ)|; rw [abs_one]; norm_num [DEADZONE])
      (fun _ => rfl) rfl (by norm_num)).2.1⟩
